import Mathlib

/-!
Verification of `simple-web-server` (src/server.c), a single-shot TCP server:
check the port argument, create a socket, bind it, listen, accept one
connection, read at most 255 bytes, print them, write an 18-byte reply, exit.

Shallow embedding: the operating system's answers to the five checked system
calls (socket, bind, accept, read, write), the unchecked listen result, the
client bytes a successful read delivers, the indeterminate initial contents of
the 256-byte stack buffer and the OS error text are inputs (a `World`); the
program is a pure function from the argument vector and the world to a
`RunResult` holding the trace of system calls performed (with the arguments the
program passed), the bytes written to standard output, the text written to
standard error, and the exit code.

One deliberate point of the embedding: src/server.c:198 reads
`bzero(buffer[256]);`.  That call is erroneous C — it passes the single
(out-of-range) element `buffer[256]` where `bzero` expects a pointer and a
length — so it does not zero the buffer, although the comment directly above it
(src/server.c:195-197) says the code initializes the buffer.  The embedding is
faithful to the code: `buggedBzero` leaves the buffer's indeterminate stack
contents in place.
-/

namespace Server

/-- Bytes of an ASCII string literal, to model byte-level I/O. -/
def strBytes (s : String) : List Nat := s.toList.map Char.toNat

/-- C `isspace` in the default locale, as consulted by `atoi`. -/
def isCSpace (c : Char) : Bool :=
  c = ' ' || c = '\t' || c = '\n' || c = '\x0b' || c = '\x0c' || c = '\r'

/-- Digit-accumulation loop of C `atoi`: consume decimal digits, stop at the
first non-digit. -/
def atoiLoop : List Char → Int → Int
  | [], acc => acc
  | c :: cs, acc =>
      if c.isDigit then atoiLoop cs (acc * 10 + (c.toNat - 48)) else acc

/-- C `atoi` (used at src/server.c:105): skip leading whitespace, optional
sign, then decimal digits; 0 when no digits are found. -/
def atoi (s : String) : Int :=
  match s.toList.dropWhile (fun c => isCSpace c) with
  | '-' :: rest => - atoiLoop rest 0
  | '+' :: rest => atoiLoop rest 0
  | rest => atoiLoop rest 0

/-- `htons` on a 16-bit value: swap the two bytes into network order
(src/server.c:135). -/
def htons (x : Nat) : Nat := (x % 256) * 256 + (x / 256) % 256

/-- The `sin_port` field the program stores before binding:
`htons((uint16_t) atoi(argv[1]))`; the int-to-`uint16_t` conversion reduces
modulo 2^16 (src/server.c:105 and 135). -/
def sinPortOf (arg : String) : Nat := htons ((atoi arg % 65536).toNat)

/-- One observable action of the program: a socket-API call together with the
arguments the program passes to it. -/
inductive Event where
  | socketCall
  | bindCall (sinPort : Nat)
  | listenCall (backlog : Nat)
  | acceptCall
  | readCall (maxLen : Nat)
  | writeCall (data : List Nat) (len : Nat)
  deriving DecidableEq

/-- The environment of one run: the return values the OS gives each system
call, the client bytes a successful read deposits (`readRet = some data`, the
call returning `data.length`; `none` models a negative return), the
indeterminate initial contents of the 256-byte stack buffer, and the OS error
description `perror` would append. -/
structure World where
  socketRet : Int
  bindRet : Int
  listenRet : Int
  acceptRet : Int
  readRet : Option (List Nat)
  writeRet : Int
  garbage : List Nat
  osErr : String
  deriving DecidableEq

/-- The observable outcome of one run. -/
structure RunResult where
  events : List Event
  stdout : List Nat
  stderr : String
  exitCode : Nat
  deriving DecidableEq

/-- Embeds `error` (src/server.c:14-18): `perror(msg)` writes the message, a
colon-space and the OS error description to standard error, then `exit(1)`.
Result: the stderr text and the exit status. -/
def error (msg : String) (osErr : String) : String × Nat :=
  (msg ++ ": " ++ osErr ++ "\n", 1)

/-- Embeds the call `bzero(buffer[256])` (src/server.c:198).  The statement is
erroneous (single out-of-range element instead of pointer and length), so the
buffer is not zeroed: modelled as the identity on the buffer contents. -/
def buggedBzero (buffer : List Nat) : List Nat := buffer

/-- The buffer contents after `read(newsockfd, buffer, 255)` succeeded,
depositing `data` over the start of the (un-zeroed) buffer
(src/server.c:198-210). -/
def bufferAfterRead (garbage data : List Nat) : List Nat :=
  data ++ (buggedBzero garbage).drop data.length

/-- The bytes `printf "%s"` renders for a buffer: everything up to the first
zero byte (src/server.c:215). -/
def cString (buf : List Nat) : List Nat := buf.takeWhile (fun b => b != 0)

/-- The stdout bytes of the success path:
`printf("Here is the message: %s\n", buffer)` (src/server.c:215). -/
def messageLine (buf : List Nat) : List Nat :=
  strBytes "Here is the message: " ++ cString buf ++ [10]

/-- The reply literal `"I got your message"` passed to `write` with length 18
(src/server.c:225). -/
def REPLY : List Nat := strBytes "I got your message"

/-- Embeds `main` after the argc check (src/server.c:83-233): socket, bind
(with the converted port), listen — whose return value `w.listenRet` is never
consulted (src/server.c:168) — accept, the erroneous `bzero`, read, print,
write, return 0.  Each checked failure takes the `error` exit. -/
def mainBody (arg1 : String) (w : World) : RunResult :=
  if w.socketRet < 0 then
    let e := error "ERROR opening Socket" w.osErr
    { events := [.socketCall], stdout := [], stderr := e.1, exitCode := e.2 }
  else
    let port := sinPortOf arg1
    if w.bindRet < 0 then
      let e := error "ERROR on binding" w.osErr
      { events := [.socketCall, .bindCall port], stdout := [],
        stderr := e.1, exitCode := e.2 }
    else
      if w.acceptRet < 0 then
        let e := error "ERROR on acccept" w.osErr
        { events := [.socketCall, .bindCall port, .listenCall 5, .acceptCall],
          stdout := [], stderr := e.1, exitCode := e.2 }
      else
        match w.readRet with
        | none =>
          let e := error "ERROR reading from socket" w.osErr
          { events := [.socketCall, .bindCall port, .listenCall 5,
                       .acceptCall, .readCall 255],
            stdout := [], stderr := e.1, exitCode := e.2 }
        | some data =>
          let buf := bufferAfterRead w.garbage data
          if w.writeRet < 0 then
            let e := error "ERROR writing socket" w.osErr
            { events := [.socketCall, .bindCall port, .listenCall 5,
                         .acceptCall, .readCall 255, .writeCall REPLY 18],
              stdout := messageLine buf, stderr := e.1, exitCode := e.2 }
          else
            { events := [.socketCall, .bindCall port, .listenCall 5,
                         .acceptCall, .readCall 255, .writeCall REPLY 18],
              stdout := messageLine buf, stderr := "", exitCode := 0 }

/-- Embeds `main` (src/server.c:20-233): the argc check (src/server.c:63-67)
followed by the body. -/
def main (argv : List String) (w : World) : RunResult :=
  if argv.length < 2 then
    { events := [], stdout := [],
      stderr := "ERROR, no port provided\n", exitCode := 1 }
  else
    mainBody (argv.getD 1 "") w

/-- Number of accept calls in a system-call trace. -/
def acceptCount (evs : List Event) : Nat :=
  evs.countP (fun e => match e with | .acceptCall => true | _ => false)

/-- Number of write calls in a system-call trace. -/
def writeCount (evs : List Event) : Nat :=
  evs.countP (fun e => match e with | .writeCall _ _ => true | _ => false)

/-- A fully successful world: the client sends "hello", the stack buffer
happens to be zeroed, every call succeeds. -/
def wOK : World :=
  { socketRet := 3, bindRet := 0, listenRet := 0, acceptRet := 4,
    readRet := some (strBytes "hello"), writeRet := 18,
    garbage := List.replicate 256 0, osErr := "E" }

/-- Socket creation fails. -/
def wSockFail : World := { wOK with socketRet := -1, osErr := "EACCES" }

/-- Bind fails (port taken or invalid). -/
def wBindFail : World := { wOK with bindRet := -1, osErr := "EADDRINUSE" }

/-- The peer closes without sending: read succeeds with zero bytes. -/
def wZeroRead : World := { wOK with readRet := some [] }

/-- The write succeeds but transfers only 5 of the 18 bytes. -/
def wShortWrite : World := { wOK with writeRet := 5 }

/-- Listen fails; everything else succeeds. -/
def wListenFail : World := { wOK with listenRet := -1 }

/-- All calls succeed, the client sends "hello", and the stack garbage behind
the five client bytes is the byte 65 ('A') followed by a zero. -/
def wGarbage : World :=
  { wOK with garbage := List.replicate 5 0 ++ [65, 0] ++ List.replicate 249 0 }

/-- A zero-byte read over a stack buffer whose first byte is 65 ('A'). -/
def wGarbageZeroRead : World :=
  { wOK with readRet := some [], garbage := 65 :: List.replicate 255 0 }

end Server

/-- Case analysis on the system-call trace a run can produce: it is one of the
six prefixes of the full trace, each branch cut at its failing call. -/
theorem main_events_cases (argv : List String) (w : Server.World) :
    (Server.main argv w).events = [] ∨
    (Server.main argv w).events = [.socketCall] ∨
    (Server.main argv w).events =
      [.socketCall, .bindCall (Server.sinPortOf (argv.getD 1 ""))] ∨
    (Server.main argv w).events =
      [.socketCall, .bindCall (Server.sinPortOf (argv.getD 1 "")),
       .listenCall 5, .acceptCall] ∨
    (Server.main argv w).events =
      [.socketCall, .bindCall (Server.sinPortOf (argv.getD 1 "")),
       .listenCall 5, .acceptCall, .readCall 255] ∨
    (Server.main argv w).events =
      [.socketCall, .bindCall (Server.sinPortOf (argv.getD 1 "")),
       .listenCall 5, .acceptCall, .readCall 255,
       .writeCall Server.REPLY 18] := by
  by_cases hlen : argv.length < 2
  · exact Or.inl (by simp [Server.main, hlen])
  · rcases lt_or_le w.socketRet 0 with hs | hs
    · exact Or.inr (Or.inl (by simp [Server.main, Server.mainBody, hlen, hs]))
    · rcases lt_or_le w.bindRet 0 with hb | hb


      · exact Or.inr (Or.inr (Or.inl (by
          simp [Server.main, Server.mainBody, hlen, not_lt.mpr hs, hb])))
      · rcases lt_or_le w.acceptRet 0 with ha | ha
        · exact Or.inr (Or.inr (Or.inr (Or.inl (by
            simp [Server.main, Server.mainBody, hlen, not_lt.mpr hs,
              not_lt.mpr hb, ha]))))
        · cases hr : w.readRet with
          | none =>
            exact Or.inr (Or.inr (Or.inr (Or.inr (Or.inl (by
              simp [Server.main, Server.mainBody, hlen, not_lt.mpr hs,
                not_lt.mpr hb, not_lt.mpr ha, hr])))))
          | some data =>
            rcases lt_or_le w.writeRet 0 with hw | hw
            · exact Or.inr (Or.inr (Or.inr (Or.inr (Or.inr (by
                simp [Server.main, Server.mainBody, hlen, not_lt.mpr hs,
                  not_lt.mpr hb, not_lt.mpr ha, hr, hw])))))
            · exact Or.inr (Or.inr (Or.inr (Or.inr (Or.inr (by
                simp [Server.main, Server.mainBody, hlen, not_lt.mpr hs,
                  not_lt.mpr hb, not_lt.mpr ha, hr, not_lt.mpr hw])))))

/-- C2: invoked with fewer than two argv entries, the program writes
`ERROR, no port provided` to standard error, exits with status 1, and performs
no socket operation (its system-call trace is empty). -/
theorem C2_no_port (argv : List String) (w : Server.World)
    (h : argv.length < 2) :
    Server.main argv w =
      { events := [], stdout := [],
        stderr := "ERROR, no port provided\n", exitCode := 1 } := by
  simp [Server.main, h]

/-- C2 witness: invocation with argv = ["server"] alone. -/
theorem C2_no_port_witness :
    Server.main ["server"]
        { socketRet := 3, bindRet := 0, listenRet := 0, acceptRet := 4,
          readRet := some [], writeRet := 18, garbage := [], osErr := "E" } =
      { events := [], stdout := [],
        stderr := "ERROR, no port provided\n", exitCode := 1 } :=
  C2_no_port _ _ (by decide)

/-- C1: the claim fails on the code.  In a run in which all five calls
succeed, the client sends "hello", and the stack behind the five client bytes
holds the byte 65 ('A') followed by a zero, the program exits 0 and passes the
18-byte reply to the write call — but standard output is
`Here is the message: helloA`, not `Here is the message: hello`: the erroneous
`bzero(buffer[256])` (src/server.c:198) left the buffer un-zeroed, so the
stack garbage after the client text is printed with it. -/
theorem C1_stdout_has_garbage :
    (Server.main ["server", "8080"] Server.wGarbage).exitCode = 0 ∧
    Server.Event.writeCall Server.REPLY 18 ∈
      (Server.main ["server", "8080"] Server.wGarbage).events ∧
    (Server.main ["server", "8080"] Server.wGarbage).stdout =
      Server.strBytes "Here is the message: helloA\n" ∧
    (Server.main ["server", "8080"] Server.wGarbage).stdout ≠
      Server.strBytes "Here is the message: hello\n" := by
  refine ⟨by decide, by decide, by decide, by decide⟩

/-- C3: each of the five checked system calls — socket, bind, accept, read,
write — is fatal on failure: the run ends with exactly one diagnostic on
standard error, formed of the phase message followed by the OS error
description, exit status 1, and the system-call trace stops at the failing
call (no retry, no recovery). -/
theorem C3_fatal_failures (argv : List String) (w : Server.World)
    (hargs : 2 ≤ argv.length) :
    (w.socketRet < 0 →
      Server.main argv w =
        { events := [.socketCall], stdout := [],
          stderr := "ERROR opening Socket" ++ ": " ++ w.osErr ++ "\n",
          exitCode := 1 }) ∧
    (0 ≤ w.socketRet → w.bindRet < 0 →
      Server.main argv w =
        { events := [.socketCall,
                     .bindCall (Server.sinPortOf (argv.getD 1 ""))],
          stdout := [],
          stderr := "ERROR on binding" ++ ": " ++ w.osErr ++ "\n",
          exitCode := 1 }) ∧
    (0 ≤ w.socketRet → 0 ≤ w.bindRet → w.acceptRet < 0 →
      Server.main argv w =
        { events := [.socketCall,
                     .bindCall (Server.sinPortOf (argv.getD 1 "")),
                     .listenCall 5, .acceptCall],
          stdout := [],
          stderr := "ERROR on acccept" ++ ": " ++ w.osErr ++ "\n",
          exitCode := 1 }) ∧
    (0 ≤ w.socketRet → 0 ≤ w.bindRet → 0 ≤ w.acceptRet →
      w.readRet = none →
      Server.main argv w =
        { events := [.socketCall,
                     .bindCall (Server.sinPortOf (argv.getD 1 "")),
                     .listenCall 5, .acceptCall, .readCall 255],
          stdout := [],
          stderr := "ERROR reading from socket" ++ ": " ++ w.osErr ++ "\n",
          exitCode := 1 }) ∧
    (∀ data, 0 ≤ w.socketRet → 0 ≤ w.bindRet → 0 ≤ w.acceptRet →
      w.readRet = some data → w.writeRet < 0 →
      Server.main argv w =
        { events := [.socketCall,
                     .bindCall (Server.sinPortOf (argv.getD 1 "")),
                     .listenCall 5, .acceptCall, .readCall 255,
                     .writeCall Server.REPLY 18],
          stdout := Server.messageLine (Server.bufferAfterRead w.garbage data),
          stderr := "ERROR writing socket" ++ ": " ++ w.osErr ++ "\n",
          exitCode := 1 }) := by
  have hne : ¬ argv.length < 2 := not_lt.mpr hargs
  refine ⟨?_, ?_, ?_, ?_, ?_⟩
  · intro h1
    simp [Server.main, Server.mainBody, Server.error, hne, h1]
  · intro h1 h2
    simp [Server.main, Server.mainBody, Server.error, hne,
      not_lt.mpr h1, h2]
  · intro h1 h2 h3
    simp [Server.main, Server.mainBody, Server.error, hne,
      not_lt.mpr h1, not_lt.mpr h2, h3]
  · intro h1 h2 h3 h4
    simp [Server.main, Server.mainBody, Server.error, hne,
      not_lt.mpr h1, not_lt.mpr h2, not_lt.mpr h3, h4]
  · intro data h1 h2 h3 h4 h5
    simp [Server.main, Server.mainBody, Server.error, hne,
      not_lt.mpr h1, not_lt.mpr h2, not_lt.mpr h3, h4, h5]

/-- C3 witness: socket creation failing with EACCES in a concrete world. -/
theorem C3_fatal_failures_witness :
    Server.main ["server", "80"] Server.wSockFail =
      { events := [.socketCall], stdout := [],
        stderr := "ERROR opening Socket: EACCES\n", exitCode := 1 } :=
  (C3_fatal_failures ["server", "80"] Server.wSockFail (by decide)).1
    (by decide)

set_option maxRecDepth 8192 in
/-- C4: the claim fails on the code.  `bzero(buffer[256])` (src/server.c:198)
does not initialize the buffer, so after a successful read of zero client
bytes the buffer is the untouched stack garbage: its first byte — the position
right after the (empty) client bytes — is 65, not a zero terminator, and that
garbage is what the print then renders. -/
theorem C4_buffer_not_initialized :
    Server.bufferAfterRead (65 :: List.replicate 255 0) [] =
      65 :: List.replicate 255 0 ∧
    (Server.bufferAfterRead (65 :: List.replicate 255 0) []).getD 0 0 = 65 ∧
    (Server.main ["server", "8080"] Server.wGarbageZeroRead).stdout =
      Server.strBytes "Here is the message: A\n" := by
  refine ⟨by decide, by decide, by decide⟩

/-- C5: the program performs no validation of the port argument: for every
second argument string, parsable as a port or not, once socket creation
succeeds the converted value `htons((uint16_t) atoi(arg))` is passed to the
bind call, and when that bind call fails the program exits with status 1 and
the binding diagnostic. -/
theorem C5_port_passthrough (prog arg : String) (rest : List String)
    (w : Server.World) (hsock : 0 ≤ w.socketRet) :
    Server.Event.bindCall (Server.sinPortOf arg) ∈
      (Server.main (prog :: arg :: rest) w).events ∧
    (w.bindRet < 0 →
      Server.main (prog :: arg :: rest) w =
        { events := [.socketCall, .bindCall (Server.sinPortOf arg)],
          stdout := [],
          stderr := "ERROR on binding" ++ ": " ++ w.osErr ++ "\n",
          exitCode := 1 }) := by
  have hne : ¬ rest.length + 1 + 1 < 2 := by omega
  constructor
  · rcases lt_or_le w.bindRet 0 with hb | hb
    · simp [Server.main, Server.mainBody, hne, not_lt.mpr hsock, hb,
        List.getD]
    · rcases lt_or_le w.acceptRet 0 with ha | ha
      · simp [Server.main, Server.mainBody, hne, not_lt.mpr hsock,
          not_lt.mpr hb, ha, List.getD]
      · cases hr : w.readRet with
        | none =>
          simp [Server.main, Server.mainBody, hne, not_lt.mpr hsock,
            not_lt.mpr hb, not_lt.mpr ha, hr, List.getD]
        | some data =>
          rcases lt_or_le w.writeRet 0 with hw | hw
          · simp [Server.main, Server.mainBody, hne, not_lt.mpr hsock,
              not_lt.mpr hb, not_lt.mpr ha, hr, hw, List.getD]
          · simp [Server.main, Server.mainBody, hne, not_lt.mpr hsock,
              not_lt.mpr hb, not_lt.mpr ha, hr, not_lt.mpr hw, List.getD]
  · intro hb
    simp [Server.main, Server.mainBody, Server.error, hne,
      not_lt.mpr hsock, hb, List.getD]

/-- C5 witness: the unparsable argument "notaport" converts to port 0 and
reaches the bind call, whose failure exits 1 with the binding diagnostic. -/
theorem C5_port_passthrough_witness :
    Server.Event.bindCall 0 ∈
      (Server.main ["server", "notaport"] Server.wBindFail).events ∧
    Server.main ["server", "notaport"] Server.wBindFail =
      { events := [.socketCall, .bindCall 0], stdout := [],
        stderr := "ERROR on binding: EADDRINUSE\n", exitCode := 1 } :=
  ⟨(C5_port_passthrough "server" "notaport" [] Server.wBindFail
      (by decide)).1,
   (C5_port_passthrough "server" "notaport" [] Server.wBindFail
      (by decide)).2 (by decide)⟩

/-- C6: in every run, any read call requests at most 255 bytes; and when the
read contract delivers `data` of at most 255 bytes, the client-derived portion
of the printed message (the printed bytes that come from `data` rather than
from the stack) numbers at most 255 bytes — bytes beyond the first 255 are
never read or printed. -/
theorem C6_at_most_255 (argv : List String) (w : Server.World) :
    (∀ m, Server.Event.readCall m ∈ (Server.main argv w).events → m = 255) ∧
    (∀ data, w.readRet = some data → data.length ≤ 255 →
      min (Server.cString (Server.bufferAfterRead w.garbage data)).length
        data.length ≤ 255) := by
  constructor
  · intro m hm
    rcases main_events_cases argv w with h|h|h|h|h|h <;> rw [h] at hm <;>
      simp at hm <;> exact hm
  · intro data _ hlen
    exact le_trans (min_le_right _ _) hlen

/-- C6 witness: the concrete successful run with client input "hello". -/
theorem C6_at_most_255_witness :
    (255 = 255) ∧
    min (Server.cString (Server.bufferAfterRead Server.wOK.garbage
          (Server.strBytes "hello"))).length
      (Server.strBytes "hello").length ≤ 255 :=
  ⟨(C6_at_most_255 ["server", "8080"] Server.wOK).1 255 (by decide),
   (C6_at_most_255 ["server", "8080"] Server.wOK).2 (Server.strBytes "hello")
     rfl (by decide)⟩

/-- C7: a zero-byte read is not an error: when the read succeeds with zero
bytes (peer closed without sending) and the remaining calls succeed, the run
continues to the print and the write — the full six-call trace — and
terminates with exit code 0 and an empty standard error. -/
theorem C7_zero_byte_read (argv : List String) (w : Server.World)
    (hargs : 2 ≤ argv.length) (hs : 0 ≤ w.socketRet) (hb : 0 ≤ w.bindRet)
    (ha : 0 ≤ w.acceptRet) (hr : w.readRet = some [])
    (hw : 0 ≤ w.writeRet) :
    Server.main argv w =
      { events := [.socketCall,
                   .bindCall (Server.sinPortOf (argv.getD 1 "")),
                   .listenCall 5, .acceptCall, .readCall 255,
                   .writeCall Server.REPLY 18],
        stdout := Server.messageLine (Server.bufferAfterRead w.garbage []),
        stderr := "", exitCode := 0 } := by
  have hne : ¬ argv.length < 2 := not_lt.mpr hargs
  simp [Server.main, Server.mainBody, hne, not_lt.mpr hs, not_lt.mpr hb,
    not_lt.mpr ha, hr, not_lt.mpr hw]

/-- C7 witness: peer closes without sending over a zeroed stack buffer; the
run exits 0 after printing the header with an empty message. -/
theorem C7_zero_byte_read_witness :
    Server.main ["server", "8080"] Server.wZeroRead =
      { events := [.socketCall, .bindCall (Server.sinPortOf "8080"),
                   .listenCall 5, .acceptCall, .readCall 255,
                   .writeCall Server.REPLY 18],
        stdout := Server.strBytes "Here is the message: \n",
        stderr := "", exitCode := 0 } :=
  C7_zero_byte_read ["server", "8080"] Server.wZeroRead (by decide)
    (by decide) (by decide) (by decide) rfl (by decide)

/-- C8: at most one accept call occurs in any run whatsoever, and every run
that reaches the accept point (two arguments, socket and bind succeeded)
performs it exactly once. -/
theorem C8_single_accept (argv : List String) (w : Server.World) :
    Server.acceptCount (Server.main argv w).events ≤ 1 ∧
    (2 ≤ argv.length → 0 ≤ w.socketRet → 0 ≤ w.bindRet →
      Server.acceptCount (Server.main argv w).events = 1) := by
  constructor
  · rcases main_events_cases argv w with h|h|h|h|h|h <;>
      simp [Server.acceptCount, h, List.countP_cons]
  · intro h2 hs hb
    have hne : ¬ argv.length < 2 := not_lt.mpr h2
    rcases lt_or_le w.acceptRet 0 with ha | ha
    · simp [Server.main, Server.mainBody, Server.acceptCount, hne,
        not_lt.mpr hs, not_lt.mpr hb, ha, List.countP_cons]
    · cases hr : w.readRet with
      | none =>
        simp [Server.main, Server.mainBody, Server.acceptCount, hne,
          not_lt.mpr hs, not_lt.mpr hb, not_lt.mpr ha, hr, List.countP_cons]
      | some data =>
        rcases lt_or_le w.writeRet 0 with hw | hw
        · simp [Server.main, Server.mainBody, Server.acceptCount, hne,
            not_lt.mpr hs, not_lt.mpr hb, not_lt.mpr ha, hr, hw,
            List.countP_cons]
        · simp [Server.main, Server.mainBody, Server.acceptCount, hne,
            not_lt.mpr hs, not_lt.mpr hb, not_lt.mpr ha, hr,
            not_lt.mpr hw, List.countP_cons]

/-- C8 witness: the concrete successful run accepts exactly once. -/
theorem C8_single_accept_witness :
    Server.acceptCount (Server.main ["server", "8080"] Server.wOK).events
      = 1 :=
  (C8_single_accept ["server", "8080"] Server.wOK).2 (by decide) (by decide)
    (by decide)

/-- C9: the listen result is never consulted — the whole run is identical for
every value the listen call returns, so a listen failure produces no
diagnostic and no exit — and every run that performs listen goes straight on
to the accept call. -/
theorem C9_listen_unchecked (argv : List String) (w : Server.World)
    (v : Int) :
    Server.main argv { w with listenRet := v } = Server.main argv w ∧
    (Server.Event.listenCall 5 ∈ (Server.main argv w).events →
      Server.Event.acceptCall ∈ (Server.main argv w).events) := by
  constructor
  · rfl
  · intro h
    rcases main_events_cases argv w with he|he|he|he|he|he <;>
      rw [he] at h ⊢ <;> simp_all

/-- C9 witness: a run whose listen call failed with -1 is identical to the
same run with listen succeeding, and it still reaches accept. -/
theorem C9_listen_unchecked_witness :
    Server.main ["server", "8080"] Server.wListenFail =
      Server.main ["server", "8080"] Server.wOK ∧
    Server.Event.acceptCall ∈
      (Server.main ["server", "8080"] Server.wOK).events :=
  ⟨(C9_listen_unchecked ["server", "8080"] Server.wOK (-1)).1,
   (C9_listen_unchecked ["server", "8080"] Server.wOK (-1)).2 (by decide)⟩

/-- C10: a short write is success: when the write call transfers between 0 and
17 of the 18 reply bytes (any non-negative return), the program still exits
with code 0, an empty standard error, and exactly one write call in the trace
— the remaining bytes are never retried. -/
theorem C10_short_write (argv : List String) (w : Server.World)
    (data : List Nat)
    (hargs : 2 ≤ argv.length) (hs : 0 ≤ w.socketRet) (hb : 0 ≤ w.bindRet)
    (ha : 0 ≤ w.acceptRet) (hr : w.readRet = some data)
    (h0 : 0 ≤ w.writeRet) (h17 : w.writeRet ≤ 17) :
    (Server.main argv w).exitCode = 0 ∧
    (Server.main argv w).stderr = "" ∧
    Server.writeCount (Server.main argv w).events = 1 := by
  have hne : ¬ argv.length < 2 := not_lt.mpr hargs
  refine ⟨?_, ?_, ?_⟩ <;>
    simp [Server.main, Server.mainBody, Server.writeCount, hne,
      not_lt.mpr hs, not_lt.mpr hb, not_lt.mpr ha, hr, not_lt.mpr h0,
      List.countP_cons]

/-- C10 witness: the write reports 5 of 18 bytes transferred; the run still
exits 0 with one single write call. -/
theorem C10_short_write_witness :
    (Server.main ["server", "8080"] Server.wShortWrite).exitCode = 0 ∧
    (Server.main ["server", "8080"] Server.wShortWrite).stderr = "" ∧
    Server.writeCount
      (Server.main ["server", "8080"] Server.wShortWrite).events = 1 :=
  C10_short_write ["server", "8080"] Server.wShortWrite
    (Server.strBytes "hello") (by decide) (by decide) (by decide) (by decide)
    rfl (by decide) (by decide)
